import Mathlib

/-!
# Verification of the listtra-backend AI listing-content pipeline

Shallow embedding of the AI service in `src/models/User.js` (the current,
richer-schema variant of `AIService`): the response parser/validator
`parseAIResponse`, the condition normalizer `validateCondition`, the prompt
builder `buildPrompt`, and the facade `analyzeProductImages`.

Modelling conventions:
* JSON values are an inductive `JsonVal`; JavaScript numbers are modelled as
  exact decimal values `DecNum` (mantissa x 10 ^ exponent).  This is exact for
  every decimal literal; binary double rounding is not modelled.
* JavaScript exceptions inside the parser's `try` block are modelled with
  `Except Unit`; the `catch` block is the fallback branch of `parseAIResponse`.
* Strings are Lean `String`s (lists of scalar characters); `.substring(0, n)`
  is `strTake`.  `toLowerCase` is modelled by ASCII `Char.toLower`; the
  characters kept by the `[^a-z-]` strip are ASCII anyway.
* `parseFloat` applied to `Infinity`/`NaN`-producing inputs is modelled as
  `none` (no JSON payload can denote those values).
-/

/-- Exact decimal number `m * 10 ^ e`, the model of a JavaScript number as it
comes out of JSON text or `parseFloat`. -/
structure DecNum where
  m : Int
  e : Int
  deriving DecidableEq

/-- Denotation of a `DecNum` as a rational, used to state numeric claims. -/
def DecNum.toRat (d : DecNum) : ℚ := (d.m : ℚ) * (10 : ℚ) ^ d.e

/-- JSON values (`JSON.parse` output). -/
inductive JsonVal where
  | null : JsonVal
  | bool : Bool → JsonVal
  | num : DecNum → JsonVal
  | str : String → JsonVal
  | arr : List JsonVal → JsonVal
  | obj : List (String × JsonVal) → JsonVal

/-- JavaScript truthiness of a JSON value. -/
def jsTruthy : JsonVal → Bool
  | .null => false
  | .bool b => b
  | .num d => d.m ≠ 0
  | .str s => s ≠ ""
  | .arr _ => true
  | .obj _ => true

/-- `v || d` on an optionally-present JSON value (`none` = `undefined`). -/
def jsOrVal (v : Option JsonVal) (d : JsonVal) : JsonVal :=
  match v with
  | some w => if jsTruthy w then w else d
  | none => d

/-- `Array.isArray(v) ? v : []`. -/
def jsArr (v : Option JsonVal) : List JsonVal :=
  match v with
  | some (.arr xs) => xs
  | _ => []

/-- Property lookup on a JS object built by `JSON.parse`: with duplicate keys
the later assignment wins. -/
def lookupLast (fs : List (String × JsonVal)) (k : String) : Option JsonVal :=
  fs.foldl (fun acc p => if p.1 = k then some p.2 else acc) none

/-- `v.k` property access on a JSON value (`undefined` on non-objects). -/
def jGet (j : JsonVal) (k : String) : Option JsonVal :=
  match j with
  | .obj fs => lookupLast fs k
  | _ => none

/-- `v?.k` optional-chained property access. -/
def jGetOpt (v : Option JsonVal) (k : String) : Option JsonVal :=
  match v with
  | some j => jGet j k
  | none => none

/-- `s.substring(0, n)`, i.e. the first `n` characters. -/
def strTake (s : String) (n : Nat) : String := String.mk (s.data.take n)

/-- Does `needle` occur at the head of `hay`? -/
def leadingMatch : List Char → List Char → Bool
  | [], _ => true
  | _ :: _, [] => false
  | a :: as, b :: bs => a = b && leadingMatch as bs

/-- JavaScript `hay.includes(needle)` (substring containment). -/
def jsIncludes (hay needle : List Char) : Bool :=
  match hay with
  | [] => leadingMatch needle []
  | c :: t => leadingMatch needle (c :: t) || jsIncludes t needle

/-- ASCII digit test. -/
def isDigitCh (c : Char) : Bool := '0' ≤ c && c ≤ '9'

/-- Numeric value of a digit list, most significant first. -/
def natOfDigits (ds : List Char) : Nat :=
  ds.foldl (fun n c => n * 10 + (c.toNat - '0'.toNat)) 0

/-- Whitespace skipped by `parseFloat`. -/
def pfWs (c : Char) : Bool :=
  c = ' ' || c = '\t' || c = '\n' || c = '\r' || c = '\x0b' || c = '\x0c'

/-- The optional exponent suffix of a `parseFloat` literal: `e`/`E`, optional
sign, digits.  An incomplete exponent (`"1e"`, `"1e+"`) is backtracked over,
as `parseFloat` takes the longest valid numeric-literal prefix. -/
def pfExponent (r : List Char) : Int :=
  match r with
  | c :: t =>
    if c = 'e' || c = 'E' then
      match t with
      | '+' :: u =>
        if (u.takeWhile isDigitCh).isEmpty then 0 else (natOfDigits (u.takeWhile isDigitCh) : Int)
      | '-' :: u =>
        if (u.takeWhile isDigitCh).isEmpty then 0 else -(natOfDigits (u.takeWhile isDigitCh) : Int)
      | u =>
        if (u.takeWhile isDigitCh).isEmpty then 0 else (natOfDigits (u.takeWhile isDigitCh) : Int)
    else 0
  | [] => 0

/-- JavaScript `parseFloat` on a string: skip leading whitespace, optional
sign, digits, optional fraction, optional exponent; the longest valid prefix
is converted and the rest ignored; `none` models `NaN` (no digits at all). -/
def parseFloatString (s : String) : Option DecNum :=
  let cs := s.data.dropWhile pfWs
  let sgnAndRest : Int × List Char :=
    match cs with
    | '-' :: t => (-1, t)
    | '+' :: t => (1, t)
    | t => (1, t)
  let sgn := sgnAndRest.1
  let cs1 := sgnAndRest.2
  let ip := cs1.takeWhile isDigitCh
  let r1 := cs1.dropWhile isDigitCh
  let fpAndRest : List Char × List Char :=
    match r1 with
    | '.' :: t => (t.takeWhile isDigitCh, t.dropWhile isDigitCh)
    | t => ([], t)
  let fp := fpAndRest.1
  let r2 := fpAndRest.2
  if ip.isEmpty && fp.isEmpty then none
  else some ⟨sgn * (natOfDigits (ip ++ fp) : Int), pfExponent r2 - (fp.length : Int)⟩

/-- `parseFloat` applied to a JSON value: the argument is first converted to a
string (`ToString`); a number converts to itself, an array to its elements
joined by `","` — since `parseFloat` stops at the comma this is the head
element's conversion — and `null`/booleans/objects convert to non-numeric
text. -/
def jsParseFloatJson : JsonVal → Option DecNum
  | .null => none
  | .bool _ => none
  | .num d => some d
  | .str s => parseFloatString s
  | .arr [] => none
  | .arr (x :: _) => jsParseFloatJson x
  | .obj _ => none

/-- `parseFloat(v)` where `v` may be `undefined`. -/
def jsParseFloatVal (v : Option JsonVal) : Option DecNum :=
  match v with
  | none => none
  | some j => jsParseFloatJson j

/-- `parseFloat(v) || d`: the default is taken when `parseFloat` yields `NaN`
or (falsy) zero. -/
def jsNumOr (v : Option DecNum) (d : DecNum) : DecNum :=
  match v with
  | none => d
  | some q => if q.m = 0 then d else q

/-- Whitespace accepted between JSON tokens. -/
def jsonWsCh (c : Char) : Bool := c = ' ' || c = '\t' || c = '\n' || c = '\r'

/-- Hexadecimal digit value for `\uXXXX` escapes (code points compared
numerically: `0`-`9`, `a`-`f`, `A`-`F`). -/
def hexVal (c : Char) : Option Nat :=
  let n := c.toNat
  if 48 ≤ n && n ≤ 57 then some (n - 48)
  else if 97 ≤ n && n ≤ 102 then some (n - 87)
  else if 65 ≤ n && n ≤ 70 then some (n - 55)
  else none

/-- A JSON string body (after the opening quote), processing escapes and
rejecting raw control characters.  A `\uXXXX` code that is not a valid scalar
value is mapped to `U+0000` (lone UTF-16 surrogates are not modelled). -/
def parseJsonString : Nat → List Char → List Char → Option (String × List Char)
  | 0, _, _ => none
  | fuel + 1, cs, acc =>
    match cs with
    | [] => none
    | '"' :: r => some (String.mk acc.reverse, r)
    | '\\' :: e :: r =>
      if e = '"' then parseJsonString fuel r ('"' :: acc)
      else if e = '\\' then parseJsonString fuel r ('\\' :: acc)
      else if e = '/' then parseJsonString fuel r ('/' :: acc)
      else if e = 'b' then parseJsonString fuel r ('\x08' :: acc)
      else if e = 'f' then parseJsonString fuel r ('\x0c' :: acc)
      else if e = 'n' then parseJsonString fuel r ('\n' :: acc)
      else if e = 'r' then parseJsonString fuel r ('\r' :: acc)
      else if e = 't' then parseJsonString fuel r ('\t' :: acc)
      else if e = 'u' then
        match r with
        | a :: b :: c :: d :: r2 =>
          match hexVal a, hexVal b, hexVal c, hexVal d with
          | some x, some y, some z, some w =>
            parseJsonString fuel r2 (Char.ofNat (((x * 16 + y) * 16 + z) * 16 + w) :: acc)
          | _, _, _, _ => none
        | _ => none
      else none
    | ['\\'] => none
    | c :: r => if c.toNat < 32 then none else parseJsonString fuel r (c :: acc)

/-- A JSON number token (strict JSON grammar: optional minus, no leading
zeros, fraction and exponent each requiring at least one digit). -/
def parseJsonNumber (cs : List Char) : Option (DecNum × List Char) :=
  let sgnAndRest : Int × List Char :=
    match cs with
    | '-' :: t => (-1, t)
    | t => (1, t)
  let sgn := sgnAndRest.1
  let cs1 := sgnAndRest.2
  let ip := cs1.takeWhile isDigitCh
  let r1 := cs1.dropWhile isDigitCh
  if ip.isEmpty then none
  else if 1 < ip.length && ip.headD '0' = '0' then none
  else
    let fpAndRest : Option (List Char × List Char) :=
      match r1 with
      | '.' :: t =>
        if (t.takeWhile isDigitCh).isEmpty then none
        else some (t.takeWhile isDigitCh, t.dropWhile isDigitCh)
      | t => some ([], t)
    match fpAndRest with
    | none => none
    | some (fp, r2) =>
      let expAndRest : Option (Int × List Char) :=
        match r2 with
        | c :: t =>
          if c = 'e' || c = 'E' then
            let signedTail : Int × List Char :=
              match t with
              | '+' :: u => (1, u)
              | '-' :: u => (-1, u)
              | u => (1, u)
            let ds := signedTail.2.takeWhile isDigitCh
            if ds.isEmpty then none
            else some (signedTail.1 * (natOfDigits ds : Int), signedTail.2.dropWhile isDigitCh)
          else some (0, r2)
        | [] => some (0, [])
      match expAndRest with
      | none => none
      | some (ex, r3) =>
        some (⟨sgn * (natOfDigits (ip ++ fp) : Int), ex - (fp.length : Int)⟩, r3)

mutual

/-- One JSON value, fuel-bounded recursive descent (`JSON.parse`). -/
def parseJsonVal : Nat → List Char → Option (JsonVal × List Char)
  | 0, _ => none
  | fuel + 1, cs0 =>
    let cs := cs0.dropWhile jsonWsCh
    match cs with
    | [] => none
    | c :: t =>
      if c = '"' then
        match parseJsonString fuel t [] with
        | some (s, r) => some (.str s, r)
        | none => none
      else if c = '{' then
        let t1 := t.dropWhile jsonWsCh
        match t1 with
        | '}' :: r => some (.obj [], r)
        | _ =>
          match parseJsonMembers fuel t [] with
          | some (fs, r) => some (.obj fs, r)
          | none => none
      else if c = '[' then
        let t1 := t.dropWhile jsonWsCh
        match t1 with
        | ']' :: r => some (.arr [], r)
        | _ =>
          match parseJsonElems fuel t [] with
          | some (xs, r) => some (.arr xs, r)
          | none => none
      else if c = 't' then
        if leadingMatch ['r', 'u', 'e'] t then some (.bool true, t.drop 3) else none
      else if c = 'f' then
        if leadingMatch ['a', 'l', 's', 'e'] t then some (.bool false, t.drop 4) else none
      else if c = 'n' then
        if leadingMatch ['u', 'l', 'l'] t then some (.null, t.drop 3) else none
      else
        match parseJsonNumber cs with
        | some (d, r) => some (.num d, r)
        | none => none

/-- The comma-separated elements of a JSON array, up to the closing `]`. -/
def parseJsonElems : Nat → List Char → List JsonVal → Option (List JsonVal × List Char)
  | 0, _, _ => none
  | fuel + 1, cs, acc =>
    match parseJsonVal fuel cs with
    | none => none
    | some (v, r) =>
      let r1 := r.dropWhile jsonWsCh
      match r1 with
      | ',' :: r2 => parseJsonElems fuel r2 (v :: acc)
      | ']' :: r2 => some ((v :: acc).reverse, r2)
      | _ => none

/-- The `"key": value` members of a JSON object, up to the closing brace. -/
def parseJsonMembers : Nat → List Char →
    List (String × JsonVal) → Option (List (String × JsonVal) × List Char)
  | 0, _, _ => none
  | fuel + 1, cs, acc =>
    let cs1 := cs.dropWhile jsonWsCh
    match cs1 with
    | '"' :: t =>
      match parseJsonString fuel t [] with
      | none => none
      | some (k, r) =>
        let r1 := r.dropWhile jsonWsCh
        match r1 with
        | ':' :: r2 =>
          match parseJsonVal fuel r2 with
          | none => none
          | some (v, r3) =>
            let r4 := r3.dropWhile jsonWsCh
            match r4 with
            | ',' :: r5 => parseJsonMembers fuel r5 ((k, v) :: acc)
            | '}' :: r5 => some (((k, v) :: acc).reverse, r5)
            | _ => none
        | _ => none
    | _ => none

end

/-- `JSON.parse`: one JSON value covering the whole input (trailing whitespace
allowed).  The fuel is generous: every grammar production consumes input. -/
def jsonDecode (s : String) : Option JsonVal :=
  let cs := s.data
  match parseJsonVal (4 * cs.length + 16) cs with
  | some (v, r) => if (r.dropWhile jsonWsCh).isEmpty then some v else none
  | none => none

/-- The `text.match(/\{[\s\S]*\}/)` extraction: the (greedy) match runs from
the first `{` to the last `}` of the text, provided some `}` follows the
first `{`. -/
def extractJson (s : String) : Option String :=
  let cs := s.data
  match cs.findIdx? (· = '{') with
  | none => none
  | some i =>
    match cs.reverse.findIdx? (· = '}') with
    | none => none
    | some k =>
      let j := cs.length - 1 - k
      if i < j then some (String.mk ((cs.drop i).take (j - i + 1))) else none

/-- The decoded payload of a raw provider response: locate the brace-delimited
substring, then `JSON.parse` it.  `none` iff no JSON object could be located
or decoded. -/
def payloadOf (s : String) : Option JsonVal :=
  (extractJson s).bind jsonDecode


/-! ## Condition normalizer (`validateCondition`) -/

/-- The seven canonical condition values (`validConditions` in the source). -/
def validConditions : List String :=
  ["new", "like-new", "excellent", "good", "fair", "poor", "for-parts"]

/-- The synonym table (`conditionMap` in the source), in insertion order. -/
def conditionMap : List (String × String) :=
  [("brand new", "new"), ("mint", "like-new"), ("very good", "excellent"),
   ("used", "good"), ("acceptable", "fair"), ("damaged", "poor"),
   ("broken", "for-parts")]

/-- `condition?.toLowerCase().replace(/[^a-z-]/g, '')`. -/
def cleanCond (s : String) : String :=
  String.mk ((s.data.map Char.toLower).filter fun c => ('a' ≤ c && c ≤ 'z') || c = '-')

/-- The `for (const [key, value] of Object.entries(conditionMap))` loop:
first synonym that occurs as a substring wins, default `"good"`. -/
def condLoop : List (String × String) → String → String
  | [], _ => "good"
  | (k, v) :: rest, s => if jsIncludes s.data k.data then v else condLoop rest s

/-- `validateCondition` on an optional string (absent models
`undefined`/`null`, for which the optional chaining yields the default). -/
def validateCondition (condition : Option String) : String :=
  match condition with
  | none => "good"
  | some s =>
    let normalized := cleanCond s
    if validConditions.contains normalized then normalized
    else condLoop conditionMap normalized

/-- `validateCondition` applied to a JSON field value: a non-string,
non-nullish argument makes `condition?.toLowerCase()` throw a `TypeError`. -/
def validateConditionJson : Option JsonVal → Except Unit String
  | none => .ok (validateCondition none)
  | some .null => .ok (validateCondition none)
  | some (.str s) => .ok (validateCondition (some s))
  | some _ => .error ()

/-! ## The canonical `ListingContent` record -/

/-- The `seoKeywords` groups of `marketplaceContent`. -/
structure SeoKeywords where
  primary : List JsonVal
  secondary : List JsonVal
  longTail : List JsonVal

/-- The `marketplaceContent` block of the parsed record. -/
structure MarketplaceContent where
  seoTitle : JsonVal
  keyFeatures : List JsonVal
  productDescription : JsonVal
  shortMarketplaceSummary : JsonVal
  longSeoDescription : JsonVal
  seoKeywords : SeoKeywords
  marketplaceTags : List JsonVal

/-- The `category` block. -/
structure CategoryInfo where
  main : JsonVal
  sub : JsonVal
  tags : List JsonVal

/-- The `suggestedPrice` block. -/
structure SuggestedPriceInfo where
  min : DecNum
  max : DecNum
  currency : JsonVal
  reasoning : JsonVal

/-- The record returned by `parseAIResponse` (canonical `ListingContent`).
`specifications` is an ordered key/value map because the degraded fallback
leaves it `{}` while the success path populates a fixed key set.  `error` is
the source's parse-quality marker: the spec's `parseFailed` flag corresponds
to `error` being present. -/
structure ListingContent where
  title : String
  description : JsonVal
  marketplaceContent : MarketplaceContent
  category : CategoryInfo
  condition : String
  conditionNotes : JsonVal
  specifications : List (String × JsonVal)
  suggestedPrice : SuggestedPriceInfo
  searchKeywords : List JsonVal
  warnings : List JsonVal
  confidence : DecNum
  aiProvider : String
  generatedAt : Nat
  error : Option String

/-- The spec's `parseFailed` flag: the record was synthesized as a degraded
fallback (the source marks this with the `error` property). -/
def parseFailed (r : ListingContent) : Bool := r.error.isSome

/-- `parsed.seoTitle?.substring(0, 200)`: `undefined` on a nullish field, a
`TypeError` on a non-string, non-nullish field. -/
def jsSubstringField (v : Option JsonVal) (n : Nat) : Except Unit (Option String) :=
  match v with
  | none => .ok none
  | some .null => .ok none
  | some (.str s) => .ok (some (strTake s n))
  | some _ => .error ()

/-- The record literal of the success branch of `parseAIResponse`, given the
two values whose computation can throw (`tRaw` for the truncated `seoTitle`,
`cond` for the normalized condition); both throwing subexpressions are
evaluated before the literal since either failure lands in the same `catch`. -/
def successRecord (j : JsonVal) (provider : String) (now : Nat)
    (tRaw : Option String) (cond : String) : ListingContent :=
  let specs := jGet j "specifications"
  let sp := jGet j "suggestedPrice"
  let kw := jGet j "seoKeywords"
  { title :=
      match tRaw with
      | none => "Product Listing"
      | some s => if s = "" then "Product Listing" else s
    description := jsOrVal (jGet j "productDescription") (.str "")
    marketplaceContent :=
      { seoTitle := jsOrVal (jGet j "seoTitle") (.str "")
        keyFeatures := jsArr (jGet j "keyFeatures")
        productDescription := jsOrVal (jGet j "productDescription") (.str "")
        shortMarketplaceSummary := jsOrVal (jGet j "shortMarketplaceSummary") (.str "")
        longSeoDescription := jsOrVal (jGet j "longSeoDescription") (.str "")
        seoKeywords :=
          { primary := jsArr (jGetOpt kw "primary")
            secondary := jsArr (jGetOpt kw "secondary")
            longTail := jsArr (jGetOpt kw "longTail") }
        marketplaceTags := jsArr (jGet j "marketplaceTags") }
    category :=
      { main := jsOrVal (jGetOpt specs "category") (.str "Other")
        sub := .str ""
        tags := (jsArr (jGet j "marketplaceTags")).take 10 }
    condition := cond
    conditionNotes := jsOrVal (jGet j "conditionNotes") (.str "")
    specifications :=
      [("brand", jsOrVal (jGetOpt specs "brand") (.str "")),
       ("model", jsOrVal (jGetOpt specs "model") (.str "")),
       ("modelNumber", jsOrVal (jGetOpt specs "modelNumber") (.str "")),
       ("category", jsOrVal (jGetOpt specs "category") (.str "")),
       ("subCategory", jsOrVal (jGetOpt specs "subCategory") (.str "")),
       ("dimensions", jsOrVal (jGetOpt specs "dimensions") (.str "")),
       ("weight", jsOrVal (jGetOpt specs "weight") (.str "")),
       ("year", jsOrVal (jGetOpt specs "year") .null),
       ("color", jsOrVal (jGetOpt specs "color") (.str "")),
       ("size", jsOrVal (jGetOpt specs "size") (jsOrVal (jGetOpt specs "capacity") (.str ""))),
       ("material", jsOrVal (jGetOpt specs "material") (.str "")),
       ("capacity", jsOrVal (jGetOpt specs "capacity") (.str "")),
       ("condition", jsOrVal (jGetOpt specs "condition") (.str "")),
       ("powerSpecs", jsOrVal (jGetOpt specs "powerSpecs") (.str "")),
       ("connectivity", jsOrVal (jGetOpt specs "connectivity") (.str "")),
       ("compatibility", jsOrVal (jGetOpt specs "compatibility") (.str "")),
       ("warranty", jsOrVal (jGetOpt specs "warranty") (.str "")),
       ("origin", jsOrVal (jGetOpt specs "origin") (.str "")),
       ("certifications", jsOrVal (jGetOpt specs "certifications") (.str "")),
       ("features", .arr (jsArr (jGet j "keyFeatures"))),
       ("allSpecs", jsOrVal (jGetOpt specs "allSpecs") (.obj []))]
    suggestedPrice :=
      { min := jsNumOr (jsParseFloatVal (jGetOpt sp "min")) ⟨0, 0⟩
        max := jsNumOr (jsParseFloatVal (jGetOpt sp "max")) ⟨0, 0⟩
        currency := jsOrVal (jGetOpt sp "currency") (.str "USD")
        reasoning := jsOrVal (jGetOpt sp "reasoning") (.str "") }
    searchKeywords := jsArr (jGetOpt kw "primary") ++ jsArr (jGetOpt kw "secondary")
    warnings := jsArr (jGet j "warnings")
    confidence := jsNumOr (jsParseFloatVal (jGet j "confidence")) ⟨5, -1⟩
    aiProvider := provider
    generatedAt := now
    error := none }

/-- The `try` body after a successful `JSON.parse`: field coercion, with the
two subexpressions that can throw surfaced as `Except`. -/
def buildFields (j : JsonVal) (provider : String) (now : Nat) :
    Except Unit ListingContent :=
  match jsSubstringField (jGet j "seoTitle") 200 with
  | .error e => .error e
  | .ok tRaw =>
    match validateConditionJson (jGet j "condition") with
    | .error e => .error e
    | .ok cond => .ok (successRecord j provider now tRaw cond)

/-- The `catch` branch: the degraded fallback record. -/
def degradedRecord (text provider : String) (now : Nat) : ListingContent :=
  { title := "Product for Sale"
    description := .str (strTake text 1000)
    marketplaceContent :=
      { seoTitle := .str ""
        keyFeatures := []
        productDescription := .str (strTake text 500)
        shortMarketplaceSummary := .str ""
        longSeoDescription := .str ""
        seoKeywords := { primary := [], secondary := [], longTail := [] }
        marketplaceTags := [] }
    category := { main := .str "Other", sub := .str "", tags := [] }
    condition := "good"
    conditionNotes := .str ""
    specifications := []
    suggestedPrice := { min := ⟨0, 0⟩, max := ⟨0, 0⟩, currency := .str "USD", reasoning := .str "" }
    searchKeywords := []
    warnings := []
    confidence := ⟨3, -1⟩
    aiProvider := provider
    generatedAt := now
    error := some "Failed to parse structured response" }

/-- `parseAIResponse(text, provider)`: extract the brace-delimited substring,
`JSON.parse` it, coerce every field; any failure (no match, decode error, or
a field-coercion `TypeError`) is caught locally and yields the degraded
record.  `now` models the `new Date()` timestamp. -/
def parseAIResponse (text provider : String) (now : Nat) : ListingContent :=
  match payloadOf text with
  | none => degradedRecord text provider now
  | some j =>
    match buildFields j provider now with
    | .error _ => degradedRecord text provider now
    | .ok r => r

/-! ## Prompt builder (`buildPrompt`, richer-schema variant) -/

/-- The fixed head of the instruction template, up to the interpolated product identifier. -/
def promptHead : String :=
  "Act as a senior e-commerce content strategist and marketplace listing expert.\n\nGenerate premium marketplace content for this product: **"

/-- The remainder of the fixed template: schema description, tone and style directives. -/
def promptSchema : String :=
  "**\n\nDeliver the output in strict JSON format with the following structure:\n\n\x7b\n  \"seoTitle\": \"SEO-optimised product title (80-120 chars) - include brand, model, key features\",\n  \"keyFeatures\": [\n    \"6-10 bullet points focused on real benefits, not just specs\",\n    \"Emphasise build quality, energy efficiency, hygiene, durability, capacity, quiet operation\",\n    \"Each point should highlight value and user benefits\"\n  ],\n  \"productDescription\": \"2-3 paragraphs, premium tone. Clear, helpful, professional — no hype. Explain who it\x27s ideal for and why. (200-300 words)\",\n  \"specifications\": \x7b\n    \"brand\": \"Product brand\",\n    \"model\": \"Product model\",\n    \"modelNumber\": \"Full model number\",\n    \"category\": \"Product category (Electronics, Fashion, Home Appliances, Furniture, Sports, Automotive, etc.)\",\n    \"subCategory\": \"Specific subcategory\",\n    \"dimensions\": \"Product dimensions (L x W x H)\",\n    \"weight\": \"Product weight\",\n    \"capacity\": \"Capacity/Size if applicable\",\n    \"color\": \"Product color/finish\",\n    \"material\": \"Primary materials used\",\n    \"year\": \"Year/manufacture date\",\n    \"condition\": \"Current condition assessment\",\n    \"powerSpecs\": \"Power requirements/battery (if applicable)\",\n    \"connectivity\": \"Connection types/ports (if applicable)\",\n    \"compatibility\": \"Compatible systems/models (if applicable)\",\n    \"warranty\": \"Warranty information (if known)\",\n    \"origin\": \"Country of manufacture (if visible)\",\n    \"certifications\": \"Safety certifications/standards (if visible)\",\n    \"allSpecs\": \x7b\n      \"Generate ALL product-specific specifications here as key-value pairs\": \"Include every technical detail, feature, measurement, rating, etc. based on product type\",\n      \"For Electronics\": \"Screen size, resolution, processor, RAM, storage, battery, OS, etc.\",\n      \"For Appliances\": \"Energy rating, capacity, dimensions, load type, RPM, noise level, etc.\",\n      \"For Furniture\": \"Dimensions, material, weight capacity, assembly required, style, etc.\",\n      \"For Clothing\": \"Size, fit, fabric composition, care instructions, style, etc.\",\n      \"For Vehicles/Parts\": \"Make, model, year, VIN, mileage, engine, transmission, etc.\",\n      \"Be comprehensive\": \"Include everything visible or known about this specific product\"\n    \x7d\n  \x7d,\n  \"shortMarketplaceSummary\": \"1 concise paragraph for eBay/FB Marketplace/Google Shopping (50-80 words)\",\n  \"longSeoDescription\": \"1-2 paragraphs targeting search keywords. Avoid repetition from earlier sections. Focus on benefits and search intent. (150-200 words)\",\n  \"seoKeywords\": \x7b\n    \"primary\": [\"3-5 primary keywords\"],\n    \"secondary\": [\"5-7 secondary keywords\"],\n    \"longTail\": [\"5-8 long-tail keywords phrases\"]\n  \x7d,\n  \"marketplaceTags\": [\"20-30 relevant tags for marketplace categorisation\"],\n  \"condition\": \"new|like-new|excellent|good|fair|poor|for-parts\",\n  \"conditionNotes\": \"Specific condition details if visible, any defects or wear\",\n  \"suggestedPrice\": \x7b\n    \"min\": 0,\n    \"max\": 0,\n    \"currency\": \"USD\",\n    \"reasoning\": \"Brief price justification based on condition and market value\"\n  \x7d,\n  \"warnings\": [\"Any safety or authenticity concerns if applicable\"],\n  \"confidence\": 0.95\n\x7d\n\n**Tone & Style Guidelines:**\n- Sounds like premium retail (Appliances Online / The Good Guys / JB Hi-Fi)\n- Clean, confident, premium tone\n- Australia context where relevant\n- Zero fluff, zero overly-salesy language\n- Use straightforward language, high trust, high clarity\n- Focus on durability, hygiene, efficiency and real user benefits\n\n**Important:**\n- Write as if product details are known\n- Focus on high-intent keywords and conversion\n- Make content suitable for Facebook Marketplace, eBay, Google Shopping & website product pages\n- Include keywords that improve search ranking\n- Avoid repeated sentences across sections\n- **CRITICAL: Generate ALL possible specifications for this product type**\n- Extract every technical detail visible or known\n- Fill the \"allSpecs\" object with comprehensive product-specific details\n- Be thorough - more specifications = better listings"

/-- Lead-in of the model-number guidance block. -/
def promptModelA : String :=
  "\n\n**Product Model Number:** "

/-- Tail of the model-number guidance block. -/
def promptModelB : String :=
  "\n\nLook up this exact model and provide:\n- ALL technical specifications from manufacturer\n- Complete feature list\n- Every measurement and rating\n- All compatibility information\n- Full performance specifications\n- Any certifications or standards\n- Complete material/construction details\n- Everything a buyer would want to know"

/-- The image-analysis guidance block used when no model number is given. -/
def promptImageBlock : String :=
  "\n\n**Note:** Analyze the product from the images provided.\n\nExtract from images:\n- Identify brand, model, and model numbers from labels\n- Read all visible text, labels, and tags\n- Estimate dimensions from context\n- Identify materials from appearance\n- Note any visible specifications or ratings\n- Capture serial numbers or model codes\n- Identify any certifications or safety marks\n- Extract ALL visible information"

/-- Lead-in of the additional-context block. -/
def promptContextA : String :=
  "\n\n**Additional Context:** "

/-- The fixed closing directive. -/
def promptTrailer : String :=
  "\n\nBe accurate and honest about the condition. If you cannot determine certain details from the information provided, indicate that clearly in the confidence score."

/-- Truthiness of an optional JS string argument (`undefined`, `null` and
`''` are falsy). -/
def optTruthy (v : Option String) : Bool :=
  match v with
  | none => false
  | some s => s ≠ ""

/-- `buildPrompt(modelNumber, additionalInfo)`: the deterministic instruction
text.  `productIdentifier = modelNumber || 'the product shown in the images'`;
the model-number or image guidance block is appended depending on
`modelNumber`, then the additional context verbatim when present, then the
fixed trailer. -/
def buildPrompt (modelNumber additionalInfo : Option String) : String :=
  let productIdentifier :=
    match modelNumber with
    | some msg => if msg = "" then "the product shown in the images" else msg
    | none => "the product shown in the images"
  let prompt := promptHead ++ productIdentifier ++ promptSchema
  let prompt :=
    match modelNumber with
    | some msg =>
      if msg = "" then prompt ++ promptImageBlock
      else prompt ++ promptModelA ++ msg ++ promptModelB
    | none => prompt ++ promptImageBlock
  let prompt :=
    match additionalInfo with
    | some info => if info = "" then prompt else prompt ++ promptContextA ++ info
    | none => prompt
  prompt ++ promptTrailer

/-! ## Facade (`analyzeProductImages`) -/

/-- The `AppError(message, statusCode)` values thrown by the facade. -/
structure AppError where
  message : String
  statusCode : Nat
  deriving DecidableEq

/-- The startup-resolved service state: which clients were constructed and
the configured provider name. -/
structure AIServiceState where
  geminiConfigured : Bool
  openaiConfigured : Bool
  preferredProvider : String

/-- A provider backend as a total oracle: instruction text and image
references in, raw response text out.  Transport faults are out of scope
here (the claims settled below concern the pre-dispatch path). -/
def ProviderOracle := String → List String → String

/-- `analyzeWithGemini`: build the prompt, call the model (one provider call;
with images, one fetch per image first), parse the raw text.  The second
component counts external calls made. -/
def analyzeWithGemini (respond : ProviderOracle) (images : List String)
    (modelNumber additionalInfo : Option String) (now : Nat) :
    ListingContent × Nat :=
  let prompt := buildPrompt modelNumber additionalInfo
  let raw := respond prompt images
  (parseAIResponse raw "gemini" now, if images.isEmpty then 1 else images.length + 1)

/-- `analyzeWithGPT4`: same shape with the OpenAI backend (image references
are passed by URL, so no per-image fetch). -/
def analyzeWithGPT4 (respond : ProviderOracle) (images : List String)
    (modelNumber additionalInfo : Option String) (now : Nat) :
    ListingContent × Nat :=
  let prompt := buildPrompt modelNumber additionalInfo
  let raw := respond prompt images
  (parseAIResponse raw "openai" now, 1)

/-- `analyzeProductImages(images, modelNumber, additionalInfo)`: the `try`
body validates the request shape, dispatches on the configured provider, or
throws `AppError('AI service not configured', 500)`; the surrounding
`catch` re-throws every error as `AppError('Failed to analyze product
images', 500)`.  Returns the result (or surfaced error) together with the
number of external calls made. -/
def analyzeProductImages (svc : AIServiceState)
    (gemini openai : ProviderOracle) (images : List String)
    (modelNumber additionalInfo : Option String) (now : Nat) :
    Except AppError ListingContent × Nat :=
  let tryBody : Except AppError ListingContent × Nat :=
    if images.isEmpty && !(optTruthy modelNumber) then
      (.error ⟨"Either images or model number is required", 400⟩, 0)
    else if svc.preferredProvider = "gemini" && svc.geminiConfigured then
      let r := analyzeWithGemini gemini images modelNumber additionalInfo now
      (.ok r.1, r.2)
    else if svc.preferredProvider = "openai" && svc.openaiConfigured then
      let r := analyzeWithGPT4 openai images modelNumber additionalInfo now
      (.ok r.1, r.2)
    else
      (.error ⟨"AI service not configured", 500⟩, 0)
  match tryBody with
  | (.error _, n) => (.error ⟨"Failed to analyze product images", 500⟩, n)
  | ok => ok

/-! ## Helper lemmas -/

/-- `Except.isOk` written out (used to state hypotheses evaluably). -/
def exceptOk {ε α : Type} : Except ε α → Bool
  | .ok _ => true
  | .error _ => false

theorem condLoop_mem (table : List (String × String)) (s : String)
    (h : ∀ p ∈ table, p.2 ∈ validConditions) : condLoop table s ∈ validConditions := by
  induction table with
  | nil => simp [condLoop, validConditions]
  | cons p rest ih =>
    simp only [condLoop]
    split
    · exact h p (by simp)
    · exact ih fun q hq => h q (by simp [hq])

theorem validateCondition_mem (c : Option String) :
    validateCondition c ∈ validConditions := by
  cases c with
  | none => simp [validateCondition, validConditions]
  | some s =>
    simp only [validateCondition]
    split
    · next h => simpa using h
    · exact condLoop_mem _ _ (by simp [conditionMap, validConditions])

theorem validateConditionJson_ok_mem {v : Option JsonVal} {s : String}
    (h : validateConditionJson v = .ok s) : s ∈ validConditions := by
  match v with
  | none => injection h with h; exact h ▸ validateCondition_mem none
  | some .null => injection h with h; exact h ▸ validateCondition_mem none
  | some (.str t) => injection h with h; exact h ▸ validateCondition_mem (some t)
  | some (.bool _) | some (.num _) | some (.arr _) | some (.obj _) => exact absurd h (by simp [validateConditionJson])

theorem validateCondition_canonical {c : String} (h : c ∈ validConditions) :
    validateCondition (some c) = c := by
  simp only [validConditions, List.mem_cons, List.not_mem_nil, or_false] at h
  rcases h with rfl | rfl | rfl | rfl | rfl | rfl | rfl <;> rfl

theorem buildFields_ok {j : JsonVal} {p : String} {n : Nat} {r : ListingContent}
    (h : buildFields j p n = .ok r) :
    ∃ tRaw cond, jsSubstringField (jGet j "seoTitle") 200 = .ok tRaw ∧
      validateConditionJson (jGet j "condition") = .ok cond ∧
      r = successRecord j p n tRaw cond := by
  unfold buildFields at h
  split at h
  · exact absurd h (by simp)
  · next h1 =>
    split at h
    · exact absurd h (by simp)
    · next h2 => exact ⟨_, _, h1, h2, by injection h with h; exact h.symm⟩

theorem jsNumOr_toRat_ne_zero (v : Option DecNum) (d : DecNum)
    (hd : DecNum.toRat d ≠ 0) : DecNum.toRat (jsNumOr v d) ≠ 0 := by
  cases v with
  | none => simpa [jsNumOr] using hd
  | some q =>
    simp only [jsNumOr]
    split
    · exact hd
    · next hm =>
      exact mul_ne_zero (Int.cast_ne_zero.mpr hm) (zpow_ne_zero _ (by norm_num))

theorem jsNumOr_toRat_of_num (q : DecNum) :
    DecNum.toRat (jsNumOr (some q) ⟨0, 0⟩) = DecNum.toRat q := by
  simp only [jsNumOr]
  split
  · next hm => simp [DecNum.toRat, hm]
  · rfl

theorem strTake_of_length_le {s : String} {n : Nat} (h : s.data.length ≤ n) :
    strTake s n = s := by
  simp only [strTake, List.take_of_length_le h]

theorem jsOrVal_str (d : String) :
    jsOrVal (some (.str d)) (.str "") = .str d := by
  by_cases h : d = "" <;> simp [jsOrVal, jsTruthy, h]

theorem parseAIResponse_of_none {text : String} (provider : String) (now : Nat)
    (h : payloadOf text = none) :
    parseAIResponse text provider now = degradedRecord text provider now := by
  simp only [parseAIResponse, h]

theorem parseAIResponse_of_error {text : String} {j : JsonVal} {provider : String}
    {now : Nat} {u : Unit} (h : payloadOf text = some j)
    (he : buildFields j provider now = .error u) :
    parseAIResponse text provider now = degradedRecord text provider now := by
  simp only [parseAIResponse, h, he]

theorem parseAIResponse_of_ok {text : String} {j : JsonVal} {provider : String}
    {now : Nat} {r : ListingContent} (h : payloadOf text = some j)
    (hk : buildFields j provider now = .ok r) :
    parseAIResponse text provider now = r := by
  simp only [parseAIResponse, h, hk]

/-- C1: for every raw text and provider id, `parseAIResponse` returns a
`ListingContent` record and never fails outward: it either returns a record
with no parse error (and `parseFailed = false`), or recovers locally into
exactly the degraded record with the `parseFailed` flag set — there is no
third, exceptional outcome. -/
theorem parseAIResponse_total_or_degraded (text provider : String) (now : Nat) :
    ((parseAIResponse text provider now).error = none ∧
      parseFailed (parseAIResponse text provider now) = false) ∨
    (parseAIResponse text provider now = degradedRecord text provider now ∧
      parseFailed (parseAIResponse text provider now) = true) := by
  cases hp : payloadOf text with
  | none =>
    rw [parseAIResponse_of_none provider now hp]
    exact Or.inr ⟨rfl, rfl⟩
  | some j =>
    cases hb : buildFields j provider now with
    | error e =>
      rw [parseAIResponse_of_error hp hb]
      exact Or.inr ⟨rfl, rfl⟩
    | ok r =>
      rw [parseAIResponse_of_ok hp hb]
      obtain ⟨tRaw, cond, _, _, hr⟩ := buildFields_ok hb
      subst hr
      exact Or.inl ⟨rfl, rfl⟩

/-- C2: the `condition` field of every record produced by the parser is one
of the seven canonical enum values, and the condition normalizer is total on
optional-string input, always returning a canonical value (including for
absent and empty-string input). -/
theorem condition_always_canonical :
    (∀ text provider now,
      (parseAIResponse text provider now).condition ∈ validConditions) ∧
    (∀ c : Option String, validateCondition c ∈ validConditions) := by
  refine ⟨fun text provider now => ?_, validateCondition_mem⟩
  cases hp : payloadOf text with
  | none =>
    rw [parseAIResponse_of_none provider now hp]
    simp [degradedRecord, validConditions]
  | some j =>
    cases hb : buildFields j provider now with
    | error e =>
      rw [parseAIResponse_of_error hp hb]
      simp [degradedRecord, validConditions]
    | ok r =>
      rw [parseAIResponse_of_ok hp hb]
      obtain ⟨tRaw, cond, _, hcond, hr⟩ := buildFields_ok hb
      subst hr
      simpa [successRecord] using validateConditionJson_ok_mem hcond

/-- C4 (evaluation at the spec's test vectors): under the implemented
algorithm, `validateCondition "Brand New, sealed"` is `"good"`, not the
claimed `"new"` — the `[^a-z-]` strip removes spaces before the substring
match, so the space-containing synonyms `"brand new"` and `"very good"` can
never match.  The other two vectors hold as claimed. -/
theorem validateCondition_spec_vectors :
    validateCondition (some "Brand New, sealed") = "good" ∧
    validateCondition (some "kinda broken") = "for-parts" ∧
    validateCondition (some "") = "good" ∧
    "good" ≠ ("new" : String) := by
  refine ⟨by decide, by decide, by decide, by decide⟩

/-- C7: the prompt builder is a pure function of its arguments — two calls
with identical `modelNumber` and `additionalInfo` produce byte-identical
instruction strings. -/
theorem buildPrompt_deterministic (m1 a1 m2 a2 : Option String)
    (h1 : m1 = m2) (h2 : a1 = a2) : buildPrompt m1 a1 = buildPrompt m2 a2 := by
  subst h1; subst h2; rfl

/-- Witness for C7 at concrete arguments. -/
theorem buildPrompt_deterministic_witness :
    (some "WH-1000XM4" : Option String) = some "WH-1000XM4" ∧
    (some "black, boxed" : Option String) = some "black, boxed" ∧
    buildPrompt (some "WH-1000XM4") (some "black, boxed") =
      buildPrompt (some "WH-1000XM4") (some "black, boxed") :=
  ⟨rfl, rfl, buildPrompt_deterministic _ _ _ _ rfl rfl⟩

/-- Raw provider text whose embedded JSON carries `suggestedPrice.min` as the
string `"199.99abc"`. -/
def c8Text : String :=
  "Here you go: \x7b\"suggestedPrice\": \x7b\"min\": \"199.99abc\"\x7d\x7d"

/-- C8: the parsed `suggestedPrice.min` for a `"199.99abc"` string is the
number `199.99` (partial-numeric `parseFloat` coercion), not the
strict-parse-then-default `0`. -/
theorem price_partial_numeric_coercion :
    (parseAIResponse c8Text "openai" 0).suggestedPrice.min = ⟨19999, -2⟩ ∧
    DecNum.toRat (parseAIResponse c8Text "openai" 0).suggestedPrice.min = 19999 / 100 ∧
    (19999 / 100 : ℚ) ≠ 0 := by
  refine ⟨rfl, ?_, by norm_num⟩
  have h : (parseAIResponse c8Text "openai" 0).suggestedPrice.min = ⟨19999, -2⟩ := rfl
  rw [h]
  norm_num [DecNum.toRat]

/-- C3: when no JSON object can be located or decoded in the raw text, the
parser returns the degraded record: fixed non-empty placeholder title, the
first 1000 characters of the raw text as description, default category,
empty specifications, zero price range, empty keyword and warning lists,
confidence `0.3`, retained provider id and timestamp, and the parse-failure
flag set. -/
theorem degraded_record_shape (text provider : String) (now : Nat)
    (h : payloadOf text = none) :
    parseAIResponse text provider now = degradedRecord text provider now ∧
    (parseAIResponse text provider now).title = "Product for Sale" ∧
    "Product for Sale" ≠ "" ∧
    (parseAIResponse text provider now).description = .str (strTake text 1000) ∧
    (parseAIResponse text provider now).category = ⟨.str "Other", .str "", []⟩ ∧
    (parseAIResponse text provider now).specifications = [] ∧
    (parseAIResponse text provider now).suggestedPrice =
      ⟨⟨0, 0⟩, ⟨0, 0⟩, .str "USD", .str ""⟩ ∧
    (parseAIResponse text provider now).searchKeywords = [] ∧
    (parseAIResponse text provider now).warnings = [] ∧
    DecNum.toRat (parseAIResponse text provider now).confidence = 3 / 10 ∧
    (parseAIResponse text provider now).aiProvider = provider ∧
    (parseAIResponse text provider now).generatedAt = now ∧
    parseFailed (parseAIResponse text provider now) = true := by
  have he := parseAIResponse_of_none provider now h
  rw [he]
  refine ⟨rfl, rfl, by decide, rfl, rfl, rfl, rfl, rfl, rfl, ?_, rfl, rfl, rfl⟩
  norm_num [degradedRecord, DecNum.toRat]

/-- Witness for C3: a raw text with no brace-delimited JSON object. -/
theorem degraded_record_shape_witness :
    payloadOf "Sorry, I could not analyze these product images." = none ∧
    (parseAIResponse "Sorry, I could not analyze these product images." "gemini" 7 =
        degradedRecord "Sorry, I could not analyze these product images." "gemini" 7 ∧
      (parseAIResponse "Sorry, I could not analyze these product images." "gemini" 7).title =
        "Product for Sale" ∧
      "Product for Sale" ≠ "" ∧
      (parseAIResponse "Sorry, I could not analyze these product images." "gemini" 7).description =
        .str (strTake "Sorry, I could not analyze these product images." 1000) ∧
      (parseAIResponse "Sorry, I could not analyze these product images." "gemini" 7).category =
        ⟨.str "Other", .str "", []⟩ ∧
      (parseAIResponse "Sorry, I could not analyze these product images." "gemini" 7).specifications = [] ∧
      (parseAIResponse "Sorry, I could not analyze these product images." "gemini" 7).suggestedPrice =
        ⟨⟨0, 0⟩, ⟨0, 0⟩, .str "USD", .str ""⟩ ∧
      (parseAIResponse "Sorry, I could not analyze these product images." "gemini" 7).searchKeywords = [] ∧
      (parseAIResponse "Sorry, I could not analyze these product images." "gemini" 7).warnings = [] ∧
      DecNum.toRat (parseAIResponse "Sorry, I could not analyze these product images." "gemini" 7).confidence =
        3 / 10 ∧
      (parseAIResponse "Sorry, I could not analyze these product images." "gemini" 7).aiProvider = "gemini" ∧
      (parseAIResponse "Sorry, I could not analyze these product images." "gemini" 7).generatedAt = 7 ∧
      parseFailed (parseAIResponse "Sorry, I could not analyze these product images." "gemini" 7) = true) :=
  ⟨rfl, degraded_record_shape _ "gemini" 7 rfl⟩

/-- C10: when the embedded JSON decodes and its `confidence` field is the
number zero (any zero-mantissa representation), the field-coercion branch
(when it completes) records confidence `0.5`: the falsy-coalescing
`parseFloat(x) || 0.5` conflates a legitimate zero with a missing value, and
no record whose parse succeeded can carry confidence `0`. -/
theorem confidence_zero_coalesced (text provider : String) (now : Nat)
    (j : JsonVal) (z : DecNum) (hz : z.m = 0)
    (h1 : payloadOf text = some j)
    (h2 : jGet j "confidence" = some (.num z))
    (h3 : exceptOk (buildFields j provider now) = true) :
    (parseAIResponse text provider now).confidence = ⟨5, -1⟩ ∧
    DecNum.toRat (⟨5, -1⟩ : DecNum) = 1 / 2 ∧
    (∀ t p n, (parseAIResponse t p n).error = none →
      DecNum.toRat (parseAIResponse t p n).confidence ≠ 0) := by
  refine ⟨?_, by norm_num [DecNum.toRat], ?_⟩
  · cases hb : buildFields j provider now with
    | error e => rw [hb] at h3; exact absurd h3 (by simp [exceptOk])
    | ok r =>
      rw [parseAIResponse_of_ok h1 hb]
      obtain ⟨tRaw, cond, _, _, hr⟩ := buildFields_ok hb
      subst hr
      simp [successRecord, h2, jsParseFloatVal, jsParseFloatJson, jsNumOr, hz]
  · intro t p n herr
    cases hp : payloadOf t with
    | none =>
      rw [parseAIResponse_of_none p n hp] at herr
      exact absurd herr (by simp [degradedRecord])
    | some j2 =>
      cases hb : buildFields j2 p n with
      | error e =>
        rw [parseAIResponse_of_error hp hb] at herr
        exact absurd herr (by simp [degradedRecord])
      | ok r =>
        rw [parseAIResponse_of_ok hp hb]
        obtain ⟨tRaw, cond, _, _, hr⟩ := buildFields_ok hb
        subst hr
        exact jsNumOr_toRat_ne_zero _ _ (by norm_num [DecNum.toRat])

/-- Witness for C10: a payload with `confidence` exactly `0`. -/
theorem confidence_zero_coalesced_witness :
    payloadOf "\x7b\"confidence\": 0\x7d" = some (.obj [("confidence", .num ⟨0, 0⟩)]) ∧
    jGet (.obj [("confidence", .num ⟨0, 0⟩)]) "confidence" = some (.num ⟨0, 0⟩) ∧
    exceptOk (buildFields (.obj [("confidence", .num ⟨0, 0⟩)]) "gemini" 3) = true ∧
    ((parseAIResponse "\x7b\"confidence\": 0\x7d" "gemini" 3).confidence = ⟨5, -1⟩ ∧
      DecNum.toRat (⟨5, -1⟩ : DecNum) = 1 / 2 ∧
      (∀ t p n, (parseAIResponse t p n).error = none →
        DecNum.toRat (parseAIResponse t p n).confidence ≠ 0)) :=
  ⟨rfl, rfl, rfl,
    confidence_zero_coalesced "\x7b\"confidence\": 0\x7d" "gemini" 3
      (.obj [("confidence", .num ⟨0, 0⟩)]) ⟨0, 0⟩ rfl rfl rfl rfl⟩

/-- Raw provider text whose embedded JSON carries an out-of-range
`confidence` value. -/
def c9Text : String := "\x7b\"confidence\": 5\x7d"

/-- Counterexample to C9: the source applies no clamp — a provider value of
`5` is recorded as confidence `5`, outside `[0,1]`, on a successfully parsed
(non-degraded) record. -/
theorem confidence_unclamped_counterexample :
    (parseAIResponse c9Text "gemini" 0).confidence = ⟨5, 0⟩ ∧
    (parseAIResponse c9Text "gemini" 0).error = none ∧
    ¬ DecNum.toRat (parseAIResponse c9Text "gemini" 0).confidence ≤ 1 := by
  refine ⟨rfl, rfl, ?_⟩
  have h : (parseAIResponse c9Text "gemini" 0).confidence = ⟨5, 0⟩ := rfl
  rw [h]
  norm_num [DecNum.toRat]

/-- C9 as amended: the parser's confidence is `0.3` on every degraded
record and otherwise exactly `parseFloat(payload.confidence) || 0.5` with no
clamping — the two defaults lie in `[0,1]`, but an out-of-range numeric
provider value passes through unchanged, so membership of `[0,1]` is not an
invariant. -/
theorem confidence_amended (text provider : String) (now : Nat) :
    DecNum.toRat (parseAIResponse text provider now).confidence = 3 / 10 ∨
    ∃ j, payloadOf text = some j ∧
      (parseAIResponse text provider now).confidence =
        jsNumOr (jsParseFloatVal (jGet j "confidence")) ⟨5, -1⟩ := by
  cases hp : payloadOf text with
  | none =>
    rw [parseAIResponse_of_none provider now hp]
    exact Or.inl (by norm_num [degradedRecord, DecNum.toRat])
  | some j =>
    cases hb : buildFields j provider now with
    | error e =>
      rw [parseAIResponse_of_error hp hb]
      exact Or.inl (by norm_num [degradedRecord, DecNum.toRat])
    | ok r =>
      rw [parseAIResponse_of_ok hp hb]
      obtain ⟨tRaw, cond, _, _, hr⟩ := buildFields_ok hb
      subst hr
      exact Or.inr ⟨j, rfl, rfl⟩

/-- Raw provider text whose embedded JSON carries a non-canonical condition
string. -/
def c6Text : String := "\x7b\"condition\": \"damaged\"\x7d"

/-- Counterexample to C6: on a well-formed payload the parser does not
recover every field byte-for-byte — the reference decode of this payload has
`condition = "damaged"` but the parsed record carries the normalized
`"poor"`. -/
theorem parse_not_bytewise_counterexample :
    payloadOf c6Text = some (.obj [("condition", .str "damaged")]) ∧
    jGet (.obj [("condition", .str "damaged")]) "condition" = some (.str "damaged") ∧
    (parseAIResponse c6Text "gemini" 0).condition = "poor" ∧
    "poor" ≠ ("damaged" : String) :=
  ⟨rfl, rfl, rfl, by decide⟩

/-- C6 as amended: field values are recovered unchanged exactly when they
are already in canonical form — a string `seoTitle` that is non-empty and at
most 200 characters, a string description, a condition that is already one
of the seven canonical values, numeric prices, array-valued warnings and
keyword groups; `searchKeywords` is the concatenation of the primary and
secondary keyword groups.  Fields subject to coercion (normalization,
truncation, falsy-coalescing) are altered whenever their payload value is
not of this shape. -/
theorem parse_preserves_canonical_fields (text provider : String) (now : Nat)
    (j : JsonVal) (ts desc c : String) (mn mx : DecNum)
    (ws ps ss : List JsonVal)
    (h0 : payloadOf text = some j)
    (ht : jGet j "seoTitle" = some (.str ts))
    (hlen : ts.data.length ≤ 200) (hne : ts ≠ "")
    (hd : jGet j "productDescription" = some (.str desc))
    (hc : jGet j "condition" = some (.str c)) (hcv : c ∈ validConditions)
    (hmn : jGetOpt (jGet j "suggestedPrice") "min" = some (.num mn))
    (hmx : jGetOpt (jGet j "suggestedPrice") "max" = some (.num mx))
    (hw : jGet j "warnings" = some (.arr ws))
    (hp : jGetOpt (jGet j "seoKeywords") "primary" = some (.arr ps))
    (hs : jGetOpt (jGet j "seoKeywords") "secondary" = some (.arr ss)) :
    (parseAIResponse text provider now).title = ts ∧
    (parseAIResponse text provider now).description = .str desc ∧
    (parseAIResponse text provider now).condition = c ∧
    DecNum.toRat (parseAIResponse text provider now).suggestedPrice.min = DecNum.toRat mn ∧
    DecNum.toRat (parseAIResponse text provider now).suggestedPrice.max = DecNum.toRat mx ∧
    (parseAIResponse text provider now).warnings = ws ∧
    (parseAIResponse text provider now).searchKeywords = ps ++ ss ∧
    (parseAIResponse text provider now).error = none := by
  have htitle : jsSubstringField (jGet j "seoTitle") 200 = .ok (some (strTake ts 200)) := by
    rw [ht]; rfl
  have hcond : validateConditionJson (jGet j "condition") = .ok c := by
    rw [hc]
    simp [validateConditionJson, validateCondition_canonical hcv]
  have hbf : buildFields j provider now =
      .ok (successRecord j provider now (some (strTake ts 200)) c) := by
    unfold buildFields
    rw [htitle, hcond]
  rw [parseAIResponse_of_ok h0 hbf]
  refine ⟨?_, ?_, rfl, ?_, ?_, ?_, ?_, rfl⟩
  · simp only [successRecord, strTake_of_length_le hlen]
    simp [hne]
  · simp only [successRecord, hd, jsOrVal_str]
  · simp only [successRecord, hmn, jsParseFloatVal, jsParseFloatJson,
      jsNumOr_toRat_of_num]
  · simp only [successRecord, hmx, jsParseFloatVal, jsParseFloatJson,
      jsNumOr_toRat_of_num]
  · simp only [successRecord, hw, jsArr]
  · simp only [successRecord, hp, hs, jsArr]

/-- Witness payload text for the amended C6. -/
def c6WitnessText : String :=
  "\x7b\"seoTitle\": \"Sony WH-1000XM4 Wireless Headphones\", " ++
  "\"productDescription\": \"Industry-leading noise cancelling.\", " ++
  "\"condition\": \"good\", " ++
  "\"suggestedPrice\": \x7b\"min\": 150, \"max\": 250\x7d, " ++
  "\"warnings\": [\"check serial\"], " ++
  "\"seoKeywords\": \x7b\"primary\": [\"headphones\"], \"secondary\": [\"sony\"]\x7d\x7d"

set_option maxRecDepth 8000 in
/-- Witness for the amended C6 at a concrete canonical-form payload. -/
theorem parse_preserves_canonical_fields_witness :
    payloadOf c6WitnessText =
      some (.obj
        [("seoTitle", .str "Sony WH-1000XM4 Wireless Headphones"),
         ("productDescription", .str "Industry-leading noise cancelling."),
         ("condition", .str "good"),
         ("suggestedPrice", .obj [("min", .num ⟨150, 0⟩), ("max", .num ⟨250, 0⟩)]),
         ("warnings", .arr [.str "check serial"]),
         ("seoKeywords", .obj
           [("primary", .arr [.str "headphones"]),
            ("secondary", .arr [.str "sony"])])]) ∧
    ((parseAIResponse c6WitnessText "openai" 11).title =
        "Sony WH-1000XM4 Wireless Headphones" ∧
      (parseAIResponse c6WitnessText "openai" 11).description =
        .str "Industry-leading noise cancelling." ∧
      (parseAIResponse c6WitnessText "openai" 11).condition = "good" ∧
      DecNum.toRat (parseAIResponse c6WitnessText "openai" 11).suggestedPrice.min =
        DecNum.toRat ⟨150, 0⟩ ∧
      DecNum.toRat (parseAIResponse c6WitnessText "openai" 11).suggestedPrice.max =
        DecNum.toRat ⟨250, 0⟩ ∧
      (parseAIResponse c6WitnessText "openai" 11).warnings = [.str "check serial"] ∧
      (parseAIResponse c6WitnessText "openai" 11).searchKeywords =
        [.str "headphones"] ++ [.str "sony"] ∧
      (parseAIResponse c6WitnessText "openai" 11).error = none) :=
  ⟨rfl,
    parse_preserves_canonical_fields c6WitnessText "openai" 11 _
      "Sony WH-1000XM4 Wireless Headphones" "Industry-leading noise cancelling."
      "good" ⟨150, 0⟩ ⟨250, 0⟩ [.str "check serial"] [.str "headphones"]
      [.str "sony"] rfl rfl (by decide) (by decide) rfl rfl (by decide) rfl rfl
      rfl rfl rfl⟩

/-- C5 (evaluation at the failing input): calling the facade with no images
and no model number does reject the request before any provider or network
call (the external-call count is zero), but the surfaced failure is the
generic `AppError('Failed to analyze product images', 500)` — the function's
own `catch` swallows and re-wraps the intended
`AppError('Either images or model number is required', 400)`, so no
`InvalidRequest` (400-class) condition reaches the caller, for every service
configuration and provider behavior. -/
theorem invalid_request_masked (svc : AIServiceState)
    (gemini openai : ProviderOracle) (now : Nat) :
    analyzeProductImages svc gemini openai [] none none now =
      (.error ⟨"Failed to analyze product images", 500⟩, 0) ∧
    (⟨"Failed to analyze product images", 500⟩ : AppError) ≠
      ⟨"Either images or model number is required", 400⟩ :=
  ⟨rfl, by decide⟩
